import Mathlib

/-!
Verification of `transcribe.py`, a Whisper transcription driver.

The Python functions are shallowly embedded: float seconds become exact
rationals, file writes become explicit `(path, content)` lists, and the
external collaborators (torch probe, model loader, recognition engine)
become oracle parameters. Control flow is translated line by line from
the source.
-/

namespace Transcribe

/-- Python floor division `a // b` on exact rationals (floats modelled as ℚ). -/
def pyFloorDiv (a b : ℚ) : ℚ := ((⌊a / b⌋ : ℤ) : ℚ)

/-- Python modulo `a % b` on exact rationals: `a - b * (a // b)`. -/
def pyMod (a b : ℚ) : ℚ := a - b * ((⌊a / b⌋ : ℤ) : ℚ)

/-- Python `int(x)` on a number: truncation toward zero. -/
def pyInt (q : ℚ) : ℤ := if 0 ≤ q then ⌊q⌋ else -⌊-q⌋

/-- Python format spec `0wd` (as in the f-string of `format_timestamp`):
decimal digits of `n`, zero-padded after the sign up to total width `w`. -/
def zfill (w : Nat) (n : ℤ) : String :=
  (if n < 0 then "-" else "")
    ++ String.mk (List.replicate
        (w - ((if n < 0 then 1 else 0) + (toString n.natAbs).length)) '0')
    ++ toString n.natAbs

/-- The ASCII whitespace characters removed by Python `str.strip()`. -/
def pyIsSpace (c : Char) : Bool :=
  c == ' ' || c == '\t' || c == '\n' || c == '\r' || c == '\x0b' || c == '\x0c'

/-- Drop leading whitespace from a character list. -/
def dropSpaces : List Char → List Char
  | [] => []
  | c :: rest => if pyIsSpace c then dropSpaces rest else c :: rest

/-- Python `str.strip()`: remove leading and trailing (ASCII) whitespace. -/
def strip (s : String) : String :=
  String.mk (List.reverse (dropSpaces (List.reverse (dropSpaces s.data))))

/-- `format_timestamp(seconds)` from `transcribe.py` lines 61-67:
`hours = int(seconds // 3600)`, `minutes = int((seconds % 3600) // 60)`,
`secs = int(seconds % 60)`, `millisecs = int((seconds % 1) * 1000)`,
rendered as `HH:MM:SS,mmm` with 2/2/2/3-wide zero padding. -/
def format_timestamp (seconds : ℚ) : String :=
  zfill 2 (pyInt (pyFloorDiv seconds 3600)) ++ ":" ++
  zfill 2 (pyInt (pyFloorDiv (pyMod seconds 3600) 60)) ++ ":" ++
  zfill 2 (pyInt (pyMod seconds 60)) ++ "," ++
  zfill 3 (pyInt (pyMod seconds 1 * 1000))

/-- The exact value of the IEEE-754 double nearest the decimal literal
`3661.234`, the value the program actually formats for that input.  In the
binade `[2 ^ 11, 2 ^ 12)` the grid spacing is `2 ^ (-41)`, and
`3661.234 * 2 ^ 41 = 8051138710017671 + 168/1000`, so round-to-nearest
lands on the grid point below the literal.  Every float operation
`format_timestamp` performs on this value is exact (each intermediate,
including the final `* 1000` product `514571441799000`, fits in 53 bits),
so the rational model evaluated here reproduces the program bit-for-bit. -/
def double_3661_234 : ℚ := 8051138710017671 / 2 ^ 41

/-- The exact value of the IEEE-754 double nearest the decimal literal
`59.9995`: grid spacing `2 ^ (-47)` in `[2 ^ 5, 2 ^ 6)`, and
`59.9995 * 2 ^ 47 = 8444178932575502 + 336/1000`, so round-to-nearest lands
below the literal.  Here the program's final `* 1000` product exceeds 53
bits and is rounded, but by less than an ulp of `999.49999…`, so the
truncated milliseconds agree with the exact model. -/
def double_59_9995 : ℚ := 8444178932575502 / 2 ^ 47

/-- One segment of engine output: a dict with keys `start`, `end`, `text`. -/
structure Segment where
  start : ℚ
  «end» : ℚ
  text : String
deriving DecidableEq

/-- The concatenation of a sequence of `f.write(...)` calls. -/
def writeAll : List String → String
  | [] => ""
  | s :: rest => s ++ writeAll rest

/-- The block written for one segment in the loop of `generate_srt`
(lines 72-79): index, time-range line, stripped text, blank separator. -/
def srtBlock (i : Nat) (segment : Segment) : String :=
  toString i ++ "\n" ++
    format_timestamp segment.start ++ " --> " ++ format_timestamp segment.«end» ++ "\n" ++
    strip segment.text ++ "\n\n"

/-- The blocks of `generate_srt`: `enumerate(segments, 1)` starts the index
at `i` and counts up. -/
def srtBlocks : Nat → List Segment → List String
  | _, [] => []
  | i, segment :: rest => srtBlock i segment :: srtBlocks (i + 1) rest

/-- `generate_srt(segments, output_path)` from lines 69-79: the content
written to the output file. -/
def generate_srt (segments : List Segment) : String :=
  writeAll (srtBlocks 1 segments)

/-- The title prefix written by `generate_markdown` (line 84), before the
file name.  The source file literally contains this mojibake character
sequence (including a soft hyphen), reproduced here by code point. -/
def mdTitle : String := "# é€å­—ç¨¿ï¼š"

/-- `generate_markdown(segments, output_path, filename)` from lines 81-91:
title line with the file name, separator, then one paragraph per segment
whose stripped text is truthy (non-empty). -/
def generate_markdown (segments : List Segment) (filename : String) : String :=
  (mdTitle ++ filename ++ "\n\n") ++ "---\n\n" ++
    writeAll (segments.map fun segment =>
      if strip segment.text = "" then "" else strip segment.text ++ "\n\n")

/-- Outcome of probing the `torch` backend, the external facts `check_gpu`
branches on: whether `import torch` succeeds, whether
`torch.cuda.is_available()` returns true, the reported device name, and
whether the smoke matmul on the GPU runs without raising. -/
structure TorchEnv where
  importOk : Bool
  cudaAvailable : Bool
  gpuName : String
  smokeOk : Bool

/-- `check_gpu()` from lines 35-59: returns `"cuda"` only when torch
imports, reports CUDA available, and the smoke computation succeeds;
every other path returns `"cpu"`. -/
def check_gpu (env : TorchEnv) : String :=
  if env.importOk then
    if env.cudaAvailable then
      if env.smokeOk then "cuda" else "cpu"
    else "cpu"
  else "cpu"

/-- The keyword arguments of one `model.transcribe(...)` call
(lines 128-136 and 139-147). -/
structure TranscribeArgs where
  language : Option String
  word_timestamps : Bool
  verbose : Bool
  task : String
  condition_on_previous_text : Bool
  temperature : ℚ
deriving DecidableEq

/-- The first attempt (lines 128-136): `language="yue"` plus the fixed
configuration. -/
def primaryArgs : TranscribeArgs :=
  ⟨some "yue", true, true, "transcribe", false, 0⟩

/-- The fallback attempt (lines 139-147): `language=None`, same fixed
configuration. -/
def fallbackArgs : TranscribeArgs :=
  ⟨none, true, true, "transcribe", false, 0⟩

/-- Observable outcome of `transcribe_file`: the returned boolean, the
engine calls made in order, and the files written as (path, content). -/
structure TranscribeOutcome where
  success : Bool
  calls : List TranscribeArgs
  writes : List (String × String)
deriving DecidableEq

/-- The two output files produced on success (lines 156-168):
`<stem>_transcript.srt` and `<stem>_transcript.md` next to the input. -/
def outputsOf (result : List Segment) (stem name parent : String) :
    List (String × String) :=
  [(parent ++ "/" ++ stem ++ "_transcript.srt", generate_srt result),
   (parent ++ "/" ++ stem ++ "_transcript.md", generate_markdown result name)]

/-- `transcribe_file(file_path)` from lines 93-175, with the external world
as oracles: `fileExists` is `file_path.exists()`, `ffmpegPresent` is the
`check_dependencies()` probe, `torch` feeds `check_gpu`, `load_model`
models `whisper.load_model("large", device=...)`, and `engine` models
`model.transcribe(...)` keyed by its arguments.  Returns the success flag
together with the engine calls made and the files written. -/
def transcribe_file (fileExists ffmpegPresent : Bool) (torch : TorchEnv)
    (load_model : String → Except String Unit)
    (engine : TranscribeArgs → Except String (List Segment))
    (stem name parent : String) : TranscribeOutcome :=
  if fileExists = false then ⟨false, [], []⟩
  else if ffmpegPresent = false then ⟨false, [], []⟩
  else
    match load_model (check_gpu torch) with
    | .error _ => ⟨false, [], []⟩
    | .ok _ =>
      match engine primaryArgs with
      | .ok result => ⟨true, [primaryArgs], outputsOf result stem name parent⟩
      | .error _ =>
        match engine fallbackArgs with
        | .ok result =>
            ⟨true, [primaryArgs, fallbackArgs], outputsOf result stem name parent⟩
        | .error _ => ⟨false, [primaryArgs, fallbackArgs], []⟩

/-- The loop of `main()` (lines 195-199): `tf` is the per-path result of
`transcribe_file`.  Returns the final `success_count` and, in order, the
numerators of the `[n/total]` progress labels printed before each file. -/
def mainLoop (tf : String → Bool) : List String → Nat → Nat × List Nat
  | [], success_count => (success_count, [])
  | file_path :: rest, success_count =>
    let label := success_count + 1
    let next_count := if tf file_path then success_count + 1 else success_count
    let r := mainLoop tf rest next_count
    (r.1, label :: r.2)

/-- `main()` on a list of input paths: loop starting from `success_count = 0`. -/
def mainRun (tf : String → Bool) (files : List String) : Nat × List Nat :=
  mainLoop tf files 0

/-- The final summary line (line 201): `success_count / total_files`. -/
def mainReport (tf : String → Bool) (files : List String) : Nat × Nat :=
  ((mainRun tf files).1, files.length)

end Transcribe

namespace Transcribe

theorem pyInt_intCast (n : ℤ) : pyInt ((n : ℤ) : ℚ) = n := by
  unfold pyInt
  by_cases h : (0 : ℚ) ≤ (n : ℚ)
  · rw [if_pos h, Int.floor_intCast]
  · rw [if_neg h, ← Int.cast_neg, Int.floor_intCast, neg_neg]

theorem pyMod_nonneg (a : ℚ) {b : ℚ} (hb : 0 < b) : 0 ≤ pyMod a b := by
  have h1 : ((⌊a / b⌋ : ℤ) : ℚ) ≤ a / b := Int.floor_le _
  have h2 : b * ((⌊a / b⌋ : ℤ) : ℚ) ≤ b * (a / b) :=
    mul_le_mul_of_nonneg_left h1 hb.le
  have h3 : b * (a / b) = a := by
    field_simp
  unfold pyMod
  linarith

/-- Counterexample to C1's `3661.234` example on the program's actual
arithmetic.  The decimal `3661.234` is not representable as a double: the
nearest double is `double_3661_234`, which lies `(168/1000) * 2 ^ (-41)`
below the literal (first two conjuncts: the literal sits on the grid point
plus less than half a grid step; next three: that grid point has a valid
53-bit mantissa, so it is the rounding result).  Formatting that value —
on which every float operation of `format_timestamp` is exact — truncates
the milliseconds to `233`, so the program prints `01:01:01,233`, not the
claimed `01:01:01,234`. -/
theorem format_timestamp_float_counterexample :
    (3661234 / 1000 : ℚ) = double_3661_234 + 168 / 1000 / 2 ^ 41
    ∧ (168 / 1000 : ℚ) / 2 ^ 41 < 1 / 2 / 2 ^ 41
    ∧ double_3661_234 * 2 ^ 41 = 8051138710017671
    ∧ (2 : ℚ) ^ 52 ≤ double_3661_234 * 2 ^ 41
    ∧ double_3661_234 * 2 ^ 41 < 2 ^ 53
    ∧ format_timestamp double_3661_234 = "01:01:01,233"
    ∧ format_timestamp double_3661_234 ≠ "01:01:01,234" := by
  have hval : format_timestamp double_3661_234 = "01:01:01,233" := by
    norm_num [format_timestamp, pyFloorDiv, pyMod, pyInt, double_3661_234]
    decide
  refine ⟨by norm_num [double_3661_234], by norm_num,
    by norm_num [double_3661_234], by norm_num [double_3661_234],
    by norm_num [double_3661_234], hval, ?_⟩
  rw [hval]
  decide

/-- Claim C1 (amended): for every non-negative rational number of seconds —
the exact value of the double being formatted — `format_timestamp` renders
`HH:MM:SS,mmm` with `hours = floor(seconds / 3600)`,
`minutes = floor((seconds mod 3600) / 60)`, `secs = floor(seconds mod 60)`,
`millis = floor((seconds mod 1) * 1000)`, zero-padded to 2 digits (3 for
millis), milliseconds truncated rather than rounded;
`format(0) = "00:00:00,000"`; the stored double of `59.9995` formats to
`"00:00:59,999"` (truncation, not rounding); and since the double nearest
`3661.234` lies below the literal, that input formats to `"01:01:01,233"`,
not `"01:01:01,234"`. -/
theorem format_timestamp_amended (seconds : ℚ) (h : 0 ≤ seconds) :
    format_timestamp seconds =
      zfill 2 ⌊seconds / 3600⌋ ++ ":" ++
      zfill 2 ⌊(seconds - 3600 * (⌊seconds / 3600⌋ : ℚ)) / 60⌋ ++ ":" ++
      zfill 2 ⌊seconds - 60 * (⌊seconds / 60⌋ : ℚ)⌋ ++ "," ++
      zfill 3 ⌊(seconds - (⌊seconds⌋ : ℚ)) * 1000⌋
    ∧ format_timestamp 0 = "00:00:00,000"
    ∧ format_timestamp double_3661_234 = "01:01:01,233"
    ∧ format_timestamp double_59_9995 = "00:00:59,999" := by
  refine ⟨?_, ?_, ?_, ?_⟩
  · have e1 : pyInt (pyFloorDiv seconds 3600) = ⌊seconds / 3600⌋ := by
      rw [pyFloorDiv, pyInt_intCast]
    have e2 : pyInt (pyFloorDiv (pyMod seconds 3600) 60) =
        ⌊(seconds - 3600 * (⌊seconds / 3600⌋ : ℚ)) / 60⌋ := by
      rw [pyFloorDiv, pyInt_intCast, pyMod]
    have e3 : pyInt (pyMod seconds 60) = ⌊seconds - 60 * (⌊seconds / 60⌋ : ℚ)⌋ := by
      unfold pyInt
      rw [if_pos (pyMod_nonneg seconds (by norm_num)), pyMod]
    have e4 : pyInt (pyMod seconds 1 * 1000) =
        ⌊(seconds - (⌊seconds⌋ : ℚ)) * 1000⌋ := by
      have h0 : (0 : ℚ) ≤ pyMod seconds 1 * 1000 :=
        mul_nonneg (pyMod_nonneg seconds one_pos) (by norm_num)
      unfold pyInt
      rw [if_pos h0, pyMod, div_one, one_mul]
    unfold format_timestamp
    rw [e1, e2, e3, e4]
  · norm_num [format_timestamp, pyFloorDiv, pyMod, pyInt]
    decide
  · norm_num [format_timestamp, pyFloorDiv, pyMod, pyInt, double_3661_234]
    decide
  · norm_num [format_timestamp, pyFloorDiv, pyMod, pyInt, double_59_9995]
    decide

/-- Witness for C1 (amended) at the stored double of `3661.234`. -/
theorem format_timestamp_amended_witness :
    format_timestamp double_3661_234 = "01:01:01,233" :=
  (format_timestamp_amended double_3661_234 (by norm_num [double_3661_234])).2.2.1

theorem srtBlocks_enumFrom (i : Nat) (segments : List Segment) :
    srtBlocks i segments = (List.enumFrom i segments).map fun p => srtBlock p.1 p.2 := by
  induction segments generalizing i with
  | nil => rfl
  | cons s rest ih => simp [srtBlocks, List.enumFrom, ih]

theorem srtBlocks_length (segments : List Segment) (i : Nat) :
    (srtBlocks i segments).length = segments.length := by
  induction segments generalizing i with
  | nil => rfl
  | cons s rest ih => simp [srtBlocks, ih]

theorem srtBlocks_append (xs ys : List Segment) (i : Nat) :
    srtBlocks i (xs ++ ys) = srtBlocks i xs ++ srtBlocks (i + xs.length) ys := by
  induction xs generalizing i with
  | nil => simp [srtBlocks]
  | cons s rest ih =>
    simp only [List.cons_append, srtBlocks, List.length_cons, List.append_eq]
    rw [ih]
    have harith : i + 1 + rest.length = i + (rest.length + 1) := by omega
    rw [harith]

/-- Claim C2: the subtitle serializer emits, for each segment in input order
with indices from 1, the index line, the `start --> end` time-range line in
`HH:MM:SS,mmm` form, the stripped text line, and a blank separator; on
`[{0, 1.5, "a"}, {1.5, 3, "b"}]` the output is exactly the two blocks
`1 / 00:00:00,000 --> 00:00:01,500 / a` and
`2 / 00:00:01,500 --> 00:00:03,000 / b`, each ending in a blank line. -/
theorem generate_srt_spec (segments : List Segment) :
    generate_srt segments =
      writeAll ((List.enumFrom 1 segments).map fun p =>
        toString p.1 ++ "\n" ++
          format_timestamp p.2.start ++ " --> " ++ format_timestamp p.2.«end» ++ "\n" ++
          strip p.2.text ++ "\n\n")
    ∧ generate_srt [⟨0, 3 / 2, "a"⟩, ⟨3 / 2, 3, "b"⟩] =
        "1\n00:00:00,000 --> 00:00:01,500\na\n\n2\n00:00:01,500 --> 00:00:03,000\nb\n\n" := by
  constructor
  · rw [generate_srt, srtBlocks_enumFrom]
    rfl
  · norm_num [generate_srt, srtBlocks, srtBlock, writeAll,
      format_timestamp, pyFloorDiv, pyMod, pyInt]
    decide

/-- Claim C3: the subtitle serializer never skips a segment: a segment whose
stripped text is empty still contributes a block holding its index line
(its 1-based position), its time-range line, and an empty text line, and
the number of blocks always equals the number of segments. -/
theorem generate_srt_no_skip (pre post : List Segment) (s : Segment)
    (he : strip s.text = "") :
    generate_srt (pre ++ s :: post) =
      writeAll (srtBlocks 1 pre ++
        (toString (pre.length + 1) ++ "\n" ++
            format_timestamp s.start ++ " --> " ++ format_timestamp s.«end» ++ "\n" ++
            "" ++ "\n\n")
          :: srtBlocks (pre.length + 2) post)
    ∧ (srtBlocks 1 (pre ++ s :: post)).length = (pre ++ s :: post).length := by
  refine ⟨?_, srtBlocks_length _ _⟩
  rw [generate_srt, srtBlocks_append]
  simp only [srtBlocks]
  rw [srtBlock, he]
  have h1 : 1 + pre.length = pre.length + 1 := by omega
  rw [h1]

/-- Witness for C3: one whitespace-only segment. -/
theorem generate_srt_no_skip_witness :
    generate_srt [⟨0, 1, "  "⟩] =
      writeAll (srtBlocks 1 [] ++
        (toString ((List.length ([] : List Segment)) + 1) ++ "\n" ++
            format_timestamp (0 : ℚ) ++ " --> " ++ format_timestamp (1 : ℚ) ++ "\n" ++
            "" ++ "\n\n")
          :: srtBlocks ((List.length ([] : List Segment)) + 2) [])
    ∧ (srtBlocks 1 ([] ++ (⟨0, 1, "  "⟩ : Segment) :: [])).length =
        ([] ++ (⟨0, 1, "  "⟩ : Segment) :: []).length :=
  generate_srt_no_skip [] [] ⟨0, 1, "  "⟩ (by decide)

theorem markdown_body_filter (segments : List Segment) :
    writeAll (segments.map fun segment =>
        if strip segment.text = "" then "" else strip segment.text ++ "\n\n")
      = writeAll (((segments.map fun s => strip s.text).filter fun t => t ≠ "").map
          fun t => t ++ "\n\n") := by
  induction segments with
  | nil => rfl
  | cons s rest ih =>
    by_cases h : strip s.text = ""
    · simpa [writeAll, h] using ih
    · simp [writeAll, h, ih]

/-- Claim C4: the clean-text serializer emits a title line containing the
source filename, a separator, then the stripped text of each segment as its
own paragraph in input order, skipping exactly the segments whose stripped
text is empty — so skipped segments contribute no blank paragraphs at all. -/
theorem generate_markdown_spec (segments : List Segment) (filename : String) :
    generate_markdown segments filename =
      (mdTitle ++ filename ++ "\n\n") ++ "---\n\n" ++
        writeAll (((segments.map fun s => strip s.text).filter fun t => t ≠ "").map
          fun t => t ++ "\n\n") := by
  rw [generate_markdown, markdown_body_filter]

/-- Claim C8: both serializers are total over every segment sequence,
produce a valid (header-only or empty) file on the empty sequence, and
preserve the input order of segments: the subtitle output is the
concatenation of per-segment blocks in enumeration order, and the
clean-text output is the concatenation of the order-preserving filtered
paragraph list. -/
theorem serializers_total (segments : List Segment) (filename : String) :
    generate_srt ([] : List Segment) = ""
    ∧ generate_markdown [] filename = (mdTitle ++ filename ++ "\n\n") ++ "---\n\n"
    ∧ generate_srt segments =
        writeAll ((List.enumFrom 1 segments).map fun p => srtBlock p.1 p.2)
    ∧ generate_markdown segments filename =
        (mdTitle ++ filename ++ "\n\n") ++ "---\n\n" ++
          writeAll (((segments.map fun s => strip s.text).filter fun t => t ≠ "").map
            fun t => t ++ "\n\n") := by
  refine ⟨rfl, ?_, ?_, ?_⟩
  · simp [generate_markdown, writeAll]
  · rw [generate_srt, srtBlocks_enumFrom]
  · rw [generate_markdown, markdown_body_filter]

/-- Claim C6: the device selector is a total function of the probe outcome
that always returns `"cuda"` or `"cpu"`, and whenever the backend reports
itself available but the smoke computation raises, it returns `"cpu"`. -/
theorem check_gpu_never_raises (env : TorchEnv) :
    (check_gpu env = "cuda" ∨ check_gpu env = "cpu")
    ∧ (env.importOk = true → env.cudaAvailable = true → env.smokeOk = false →
        check_gpu env = "cpu") := by
  obtain ⟨imp, avail, gname, smoke⟩ := env
  cases imp <;> cases avail <;> cases smoke <;> simp [check_gpu]

/-- Witness for C6: backend available, smoke test failing. -/
theorem check_gpu_never_raises_witness :
    check_gpu ⟨true, true, "GPU", false⟩ = "cpu" :=
  (check_gpu_never_raises ⟨true, true, "GPU", false⟩).2 rfl rfl rfl

/-- Claim C5: if the primary-hint attempt raises, exactly one fallback
attempt is made, with no language hint and the same fixed configuration
(word timestamps on, task `transcribe`, no conditioning on previous text,
temperature 0); if the fallback also raises, the file is marked failed and
no output file is written. -/
theorem transcribe_file_fallback (torch : TorchEnv)
    (load_model : String → Except String Unit)
    (engine : TranscribeArgs → Except String (List Segment))
    (stem nm parent : String) (e : String)
    (hl : load_model (check_gpu torch) = Except.ok ())
    (hp : engine primaryArgs = Except.error e) :
    (transcribe_file true true torch load_model engine stem nm parent).calls
        = [primaryArgs, fallbackArgs]
    ∧ fallbackArgs.language = none
    ∧ fallbackArgs.word_timestamps = primaryArgs.word_timestamps
    ∧ fallbackArgs.task = primaryArgs.task
    ∧ fallbackArgs.condition_on_previous_text = primaryArgs.condition_on_previous_text
    ∧ fallbackArgs.temperature = primaryArgs.temperature
    ∧ primaryArgs.word_timestamps = true
    ∧ primaryArgs.task = "transcribe"
    ∧ primaryArgs.condition_on_previous_text = false
    ∧ primaryArgs.temperature = 0
    ∧ (∀ e2, engine fallbackArgs = Except.error e2 →
        (transcribe_file true true torch load_model engine stem nm parent).success = false
        ∧ (transcribe_file true true torch load_model engine stem nm parent).writes = []) := by
  cases hf : engine fallbackArgs with
  | ok result =>
    refine ⟨?_, rfl, rfl, rfl, rfl, rfl, rfl, rfl, rfl, rfl, ?_⟩
    · simp [transcribe_file, hl, hp, hf]
    · intro e2 h2
      exact absurd h2 (by simp)
  | error err =>
    refine ⟨?_, rfl, rfl, rfl, rfl, rfl, rfl, rfl, rfl, rfl, ?_⟩
    · simp [transcribe_file, hl, hp, hf]
    · intro e2 h2
      constructor <;> simp [transcribe_file, hl, hp, hf]

/-- Witness for C5: both attempts raising on a concrete environment. -/
theorem transcribe_file_fallback_witness :
    (transcribe_file true true ⟨false, false, "", false⟩ (fun _ => Except.ok ())
        (fun _ => Except.error "boom") "clip" "clip.mp4" "dir").calls
      = [primaryArgs, fallbackArgs]
    ∧ (transcribe_file true true ⟨false, false, "", false⟩ (fun _ => Except.ok ())
        (fun _ => Except.error "boom") "clip" "clip.mp4" "dir").success = false
    ∧ (transcribe_file true true ⟨false, false, "", false⟩ (fun _ => Except.ok ())
        (fun _ => Except.error "boom") "clip" "clip.mp4" "dir").writes = [] := by
  have h := transcribe_file_fallback ⟨false, false, "", false⟩ (fun _ => Except.ok ())
    (fun _ => Except.error "boom") "clip" "clip.mp4" "dir" "boom" rfl rfl
  exact ⟨h.1, (h.2.2.2.2.2.2.2.2.2.2 "boom" rfl).1, (h.2.2.2.2.2.2.2.2.2.2 "boom" rfl).2⟩

/-- Claim C9: serialization is deterministic — two runs whose engines return
the same segment sequence write the same contents, to the two paths derived
from the input as `<stem>_transcript.srt` and `<stem>_transcript.md` in the
input file's directory (the write is unconditional, overwriting silently). -/
theorem transcribe_file_deterministic
    (torch torch2 : TorchEnv)
    (lm lm2 : String → Except String Unit)
    (eng eng2 : TranscribeArgs → Except String (List Segment))
    (stem nm parent : String) (segs : List Segment)
    (hl : lm (check_gpu torch) = Except.ok ())
    (hl2 : lm2 (check_gpu torch2) = Except.ok ())
    (h : eng primaryArgs = Except.ok segs)
    (h2 : eng2 primaryArgs = Except.ok segs) :
    (transcribe_file true true torch lm eng stem nm parent).writes
        = (transcribe_file true true torch2 lm2 eng2 stem nm parent).writes
    ∧ (transcribe_file true true torch lm eng stem nm parent).writes
        = [(parent ++ "/" ++ stem ++ "_transcript.srt", generate_srt segs),
           (parent ++ "/" ++ stem ++ "_transcript.md", generate_markdown segs nm)] := by
  have e1 : (transcribe_file true true torch lm eng stem nm parent).writes
      = outputsOf segs stem nm parent := by
    simp [transcribe_file, hl, h]
  have e2 : (transcribe_file true true torch2 lm2 eng2 stem nm parent).writes
      = outputsOf segs stem nm parent := by
    simp [transcribe_file, hl2, h2]
  exact ⟨e1.trans e2.symm, by rw [e1, outputsOf]⟩

/-- Witness for C9: identical (empty) engine output on a concrete input. -/
theorem transcribe_file_deterministic_witness :
    (transcribe_file true true ⟨false, false, "", false⟩ (fun _ => Except.ok ())
        (fun _ => Except.ok ([] : List Segment)) "clip" "clip.mp4" "dir").writes
      = [("dir" ++ "/" ++ "clip" ++ "_transcript.srt", generate_srt []),
         ("dir" ++ "/" ++ "clip" ++ "_transcript.md", generate_markdown [] "clip.mp4")] :=
  (transcribe_file_deterministic ⟨false, false, "", false⟩ ⟨false, false, "", false⟩
    (fun _ => Except.ok ()) (fun _ => Except.ok ())
    (fun _ => Except.ok []) (fun _ => Except.ok [])
    "clip" "clip.mp4" "dir" [] rfl rfl rfl rfl).2

theorem mainLoop_count (tf : String → Bool) :
    ∀ (files : List String) (sc : Nat),
      (mainLoop tf files sc).1 = sc + files.countP (fun f => tf f) := by
  intro files
  induction files with
  | nil =>
    intro sc
    simp [mainLoop]
  | cons f rest ih =>
    intro sc
    by_cases h : tf f <;>
      simp [mainLoop, h, ih, List.countP_cons] <;> omega

theorem mainLoop_labels_length (tf : String → Bool) :
    ∀ (files : List String) (sc : Nat),
      (mainLoop tf files sc).2.length = files.length := by
  intro files
  induction files with
  | nil =>
    intro sc
    rfl
  | cons f rest ih =>
    intro sc
    simp [mainLoop, ih]

theorem countP_split (tf : String → Bool) (files : List String) :
    files.countP (fun f => tf f) + files.countP (fun f => !tf f) = files.length := by
  induction files with
  | nil => rfl
  | cons f rest ih =>
    cases htf : tf f <;> simp [List.countP_cons, htf] <;> omega

/-- Claim C7: the batch driver is total — it processes every one of the N
input paths (one progress label per file, in order), a failed file (for
example one that does not exist: `transcribe_file` with `fileExists =
false` returns failure) only keeps the success counter unchanged, and the
final report is `successCount / totalCount`; with exactly one failing path
it reports `(N-1)/N`. -/
theorem main_batch_driver (tf : String → Bool) (files : List String) :
    mainReport tf files = (files.countP (fun f => tf f), files.length)
    ∧ (mainRun tf files).2.length = files.length
    ∧ (files.countP (fun f => !tf f) = 1 →
        mainReport tf files = (files.length - 1, files.length))
    ∧ (∀ (ffmpeg : Bool) (torch : TorchEnv) (lm : String → Except String Unit)
        (eng : TranscribeArgs → Except String (List Segment)) (stem nm parent : String),
        (transcribe_file false ffmpeg torch lm eng stem nm parent).success = false) := by
  refine ⟨?_, mainLoop_labels_length tf files 0, ?_, ?_⟩
  · unfold mainReport mainRun
    rw [mainLoop_count]
    norm_num
  · intro h1
    have hs := countP_split tf files
    unfold mainReport mainRun
    rw [mainLoop_count]
    simp only [Prod.mk.injEq]
    refine ⟨by omega, by trivial⟩
  · intro ffmpeg torch lm eng stem nm parent
    rfl

/-- Witness for C7: three paths of which exactly one fails. -/
theorem main_batch_driver_witness :
    mainReport (fun f => f != "missing") ["a", "missing", "b"]
      = ((["a", "missing", "b"] : List String).length - 1,
         (["a", "missing", "b"] : List String).length) :=
  (main_batch_driver (fun f => f != "missing") ["a", "missing", "b"]).2.2.1 (by decide)

theorem take_length_of_le {α : Type} (l : List α) (k : Nat) (hk : k ≤ l.length) :
    (l.take k).length = k := by
  simp [List.length_take]
  omega

theorem mainLoop_labels (tf : String → Bool) :
    ∀ (files : List String) (sc : Nat),
      (mainLoop tf files sc).2
        = (List.range files.length).map
            (fun k => sc + (files.take k).countP (fun f => tf f) + 1) := by
  intro files
  induction files with
  | nil =>
    intro sc
    rfl
  | cons f rest ih =>
    intro sc
    simp only [mainLoop, List.length_cons, List.range_succ_eq_map, List.map_cons,
      List.map_map, List.take_zero, List.countP_nil, Nat.add_zero]
    congr 1
    rw [ih]
    refine List.map_congr_left ?_
    intro k _
    simp only [Function.comp_apply, List.take_succ_cons, List.countP_cons]
    by_cases hf : tf f <;> simp [hf] <;> omega

/-- Claim C10: the progress label printed before the k-th file (0-based k)
shows `successes-so-far + 1`, not the ordinal k+1: the label sequence is
exactly `countP(success, first k files) + 1` for k in range; after a failed
file the numerator for the next file does not advance; and the label equals
the ordinal exactly when all earlier files succeeded. -/
theorem main_progress_label (tf : String → Bool) (files : List String) :
    (mainRun tf files).2
        = (List.range files.length).map
            (fun k => (files.take k).countP (fun f => tf f) + 1)
    ∧ (∀ k (h : k < files.length), tf (files.get ⟨k, h⟩) = false →
        (files.take (k + 1)).countP (fun f => tf f)
          = (files.take k).countP (fun f => tf f))
    ∧ (∀ k, k ≤ files.length →
        ((files.take k).countP (fun f => tf f) + 1 = k + 1
          ↔ ∀ f ∈ files.take k, tf f = true)) := by
  refine ⟨?_, ?_, ?_⟩
  · rw [mainRun, mainLoop_labels]
    refine List.map_congr_left ?_
    intro k _
    omega
  · intro k h hfail
    have hfail2 : tf (files[k]) = false := by
      simpa using hfail
    rw [List.take_succ, List.countP_append, List.getElem?_eq_getElem h]
    simp [List.countP_cons, hfail2]
  · intro k hk
    have hlen : (files.take k).length = k := take_length_of_le files k hk
    constructor
    · intro h1
      have h2 : (files.take k).countP (fun f => tf f) = (files.take k).length := by omega
      exact List.countP_eq_length.mp h2
    · intro h1
      have h2 : (files.take k).countP (fun f => tf f) = (files.take k).length :=
        List.countP_eq_length.mpr h1
      omega

/-- Witness for C10: two files, both failing, checked at position 1. -/
theorem main_progress_label_witness :
    ((["a", "b"] : List String).take (0 + 1)).countP (fun f => (fun _ => false) f)
      = ((["a", "b"] : List String).take 0).countP (fun f => (fun _ => false) f) :=
  (main_progress_label (fun _ => false) ["a", "b"]).2.1 0 (by decide) (by decide)

end Transcribe
